import Mathlib

/-!
Verification development for the cookly repository's error-normalization and
session-lifecycle layer.

The embedding translates the TypeScript sources into Lean:
* `JSValue` models dynamically-typed JavaScript values as far as the
  destructuring helpers inspect them.
* `ErrorHandler` helpers (`safeArray`, `safeString`, `safeNumber`,
  `safeBoolean`, `mapAxiosError`, `getErrorType`, `withRetry`) from
  `lib/error-handler.ts` (shown in `app/about.tsx`).
* `ApiService` operations (`login`, `register`, `logout`, `updateProfile`,
  the axios response interceptor) from `lib/api.ts`, with durable storage
  (AsyncStorage's two keys `auth_token` / `user_data`) as an explicit record
  and the network as an explicit transport outcome.
* `AuthProvider.checkAuthState` from the auth context.
-/

set_option autoImplicit false

namespace Cookly

/-- JavaScript runtime values, as far as the safe-destructuring helpers
inspect them.  A JS `number` is modelled as `Option ℚ` with `none` playing
the role of `NaN`; an object is a field list (insertion order kept). -/
inductive JSValue where
  | null
  | undefined
  | bool (b : Bool)
  | num (x : Option ℚ)
  | str (s : String)
  | arr (xs : List JSValue)
  | obj (fields : List (String × JSValue))

/-- JavaScript truthiness for the modelled values: `null`, `undefined`,
`false`, `0`, `NaN` and `""` are falsy, everything else truthy. -/
def jsTruthy : JSValue → Bool
  | .null => false
  | .undefined => false
  | .bool b => b
  | .num none => false
  | .num (some q) => q ≠ 0
  | .str s => s ≠ ""
  | .arr _ => true
  | .obj _ => true

/-- Property access `v.k`: `undefined` when the field is absent or the value
is not an object. -/
def jsGet (v : JSValue) (k : String) : JSValue :=
  match v with
  | .obj fields =>
    match fields.find? (fun p => p.1 = k) with
    | some p => p.2
    | none => .undefined
  | _ => .undefined

/-- Model of the JavaScript `String(value)` conversion, restricted to what the
repository feeds it.  Rational numbers print as integers when the denominator
is 1, matching JS integral number printing; arrays join their elements with
commas; plain objects print as `[object Object]`. -/
def jsToString : JSValue → String
  | .null => "null"
  | .undefined => "undefined"
  | .bool b => if b then "true" else "false"
  | .num none => "NaN"
  | .num (some q) => if q.den = 1 then toString q.num else toString q
  | .str s => s
  | .arr xs => String.intercalate "," (xs.attach.map fun v => jsToString v.1)
  | .obj _ => "[object Object]"
decreasing_by
  cases v
  have := List.sizeOf_lt_of_mem (by assumption)
  simp_all
  omega

/-- Model of the JavaScript `parseFloat` builtin restricted to plain decimal
literals: optional leading whitespace, optional sign, digits with an optional
fractional part; `none` models the `NaN` result when no numeric prefix
exists.  (Exponent notation and `Infinity` are not needed by the claims.) -/
def parseFloat (s : String) : Option ℚ :=
  let chars := s.toList.dropWhile (fun c => c = ' ' ∨ c = '\t' ∨ c = '\n' ∨ c = '\r')
  let (sign, rest) :=
    match chars with
    | '-' :: cs => ((-1 : ℚ), cs)
    | '+' :: cs => ((1 : ℚ), cs)
    | cs => ((1 : ℚ), cs)
  let intPart := rest.takeWhile Char.isDigit
  let afterInt := rest.drop intPart.length
  let fracPart :=
    match afterInt with
    | '.' :: cs => cs.takeWhile Char.isDigit
    | _ => []
  if intPart = [] ∧ fracPart = [] then none
  else
    let intVal : ℚ := intPart.foldl (fun acc c => acc * 10 + (c.toNat - '0'.toNat : ℕ)) 0
    let fracVal : ℚ := fracPart.foldr (fun c acc => (acc + (c.toNat - '0'.toNat : ℕ)) / 10) 0
    some (sign * (intVal + fracVal))

/-! ### The safe coalesce-family accessors (`ErrorHandler`) -/

/-- `ErrorHandler.safeArray`: return the value when it is an array, the
fallback on `null`/`undefined`, otherwise wrap the single item in an array. -/
def safeArray (value : JSValue) (fallback : List JSValue) : List JSValue :=
  match value with
  | .arr xs => xs
  | .null => fallback
  | .undefined => fallback
  | v => [v]

/-- `ErrorHandler.safeString`: return the value when it is a string, the
fallback on `null`/`undefined`, otherwise `String(value)`. -/
def safeString (value : JSValue) (fallback : String) : String :=
  match value with
  | .str s => s
  | .null => fallback
  | .undefined => fallback
  | v => jsToString v

/-- `ErrorHandler.safeNumber`: return the value when it is a non-`NaN`
number; parse strings with `parseFloat` and return the parse when it is not
`NaN`; otherwise the fallback. -/
def safeNumber (value : JSValue) (fallback : ℚ) : ℚ :=
  match value with
  | .num (some x) => x
  | .str s =>
    match parseFloat s with
    | some parsed => parsed
    | none => fallback
  | _ => fallback

/-- Model of JavaScript `String.prototype.toLowerCase`, character-wise
(ASCII case folding suffices for the repository's inputs). -/
def jsToLower (s : String) : String := String.mk (s.data.map Char.toLower)

/-- The whitespace characters trimmed by the model of
`String.prototype.trim` (the repository only meets ASCII whitespace). -/
def isJsWs (c : Char) : Bool := c = ' ' ∨ c = '\t' ∨ c = '\n' ∨ c = '\r'

/-- Model of JavaScript `String.prototype.trim`: drop whitespace from both
ends. -/
def jsTrim (s : String) : String :=
  String.mk (((s.data.dropWhile isJsWs).reverse.dropWhile isJsWs).reverse)

/-- `ErrorHandler.safeBoolean`: return the value when it is a boolean, the
fallback on `null`/`undefined`; a string coerces to whether its lower-casing
is `"true"`; a number coerces to `value !== 0` (so `NaN` gives `true`);
anything else gives the fallback. -/
def safeBoolean (value : JSValue) (fallback : Bool) : Bool :=
  match value with
  | .bool b => b
  | .null => fallback
  | .undefined => fallback
  | .str s => jsToLower s = "true"
  | .num none => true
  | .num (some q) => q ≠ 0
  | _ => fallback

/-! ### The typed error taxonomy (`lib/error-handler.ts`) -/

/-- The closed set of error classes the handler constructs: `AppError` (with
optional `code`, `statusCode`, `details`), `NetworkError`, `ValidationError`
(with optional `details`), `AuthenticationError`, `ServerError` (with
optional `statusCode`). -/
inductive AppErr where
  | appError (message : String) (code : Option String) (statusCode : Option ℕ)
      (details : Option JSValue)
  | networkError (message : String)
  | validationError (message : String) (details : Option JSValue)
  | authenticationError (message : String)
  | serverError (message : String) (statusCode : Option ℕ)

namespace AppErr

/-- The `code` property: only the base `AppError` class declares one. -/
def code : AppErr → Option String
  | .appError _ c _ _ => c
  | _ => none

/-- The `message` property of each error class. -/
def message : AppErr → String
  | .appError m _ _ _ => m
  | .networkError m => m
  | .validationError m _ => m
  | .authenticationError m => m
  | .serverError m _ => m

end AppErr

/-- The `ErrorType` enum of `lib/error-handler.ts`. -/
inductive ErrorType where
  | NETWORK
  | VALIDATION
  | AUTHENTICATION
  | AUTHORIZATION
  | NOT_FOUND
  | SERVER
  | RATE_LIMIT
  | TIMEOUT
  | UNKNOWN
  deriving DecidableEq

/-- `ErrorHandler.getErrorType` restricted to the handler's own error
classes: `instanceof` dispatch on `NetworkError`, `ValidationError`,
`AuthenticationError`, `ServerError`; every remaining class falls through to
`UNKNOWN` (none of the five classes is named `TimeoutError`, so the
`TIMEOUT` branch never fires for them). -/
def getErrorType : AppErr → ErrorType
  | .networkError _ => .NETWORK
  | .validationError _ _ => .VALIDATION
  | .authenticationError _ => .AUTHENTICATION
  | .serverError _ _ => .SERVER
  | .appError _ _ _ _ => .UNKNOWN

/-- The part of an axios error response that `mapAxiosError` reads:
`status`, `data?.message` and `data?.errors` (absent modelled as `none`). -/
structure AxiosResponsePart where
  status : ℕ
  dataMessage : Option String
  dataErrors : Option JSValue

/-- A caught axios failure: optional `response`, optional `code` (e.g.
`"ECONNABORTED"` for a client-side timeout abort) and `message`. -/
structure AxiosError where
  response : Option AxiosResponsePart
  code : Option String
  message : String

/-- JavaScript `a || b` on an optional string: the default wins when the
left side is absent or empty (both are falsy). -/
def jsOrS (o : Option String) (d : String) : String :=
  match o with
  | some s => if s = "" then d else s
  | none => d

/-- The `message` computed by `mapAxiosError` for a response-carrying error:
`data?.message || error.message || "An error occurred"`. -/
def respMessage (e : AxiosError) (r : AxiosResponsePart) : String :=
  jsOrS r.dataMessage (jsOrS (some e.message) "An error occurred")

/-- `ErrorHandler.mapAxiosError`: no response means network failure (or a
generic timeout `AppError` when the abort code is `ECONNABORTED`); with a
response, the switch on `status` from `lib/error-handler.ts`. -/
def mapAxiosError (e : AxiosError) : AppErr :=
  match e.response with
  | none =>
    if e.code = some "ECONNABORTED" then
      .appError "Request timeout. Please try again." none none none
    else
      .networkError "Network connection failed. Please check your internet connection."
  | some r =>
    let message := respMessage e r
    if r.status = 400 then .validationError message r.dataErrors
    else if r.status = 401 then .authenticationError message
    else if r.status = 403 then .authenticationError "Access denied"
    else if r.status = 404 then .appError "Resource not found" none none none
    else if r.status = 409 then .validationError message none
    else if r.status = 429 then
      .appError "Too many requests. Please try again later." none none none
    else if r.status = 500 ∨ r.status = 502 ∨ r.status = 503 ∨ r.status = 504 then
      .serverError "Server error. Please try again later." (some r.status)
    else .appError message none none none

/-- Re-mapping that `ApiService` catch blocks apply to an already-typed
error (`throw ErrorHandler.mapAxiosError(error as any)`): a typed `AppErr`
never carries a `response` property, so only the no-response branch of
`mapAxiosError` is reachable, keyed on the error's `code`. -/
def mapCaught (e : AppErr) : AppErr :=
  if e.code = some "ECONNABORTED" then
    .appError "Request timeout. Please try again." none none none
  else
    .networkError "Network connection failed. Please check your internet connection."

/-! ### `ErrorHandler.withRetry` -/

/-- Observable behaviour of one `withRetry` run: the final outcome, how many
times the operation was invoked, and the backoff delays (in ms) waited
between consecutive invocations. -/
structure RetryTrace (α : Type) where
  result : Except AppErr α
  invocations : ℕ
  delays : List ℕ

/-- The error classes `withRetry` refuses to retry
(`lastError instanceof AuthenticationError || lastError instanceof
ValidationError`). -/
def nonRetryable : AppErr → Bool
  | .authenticationError _ => true
  | .validationError _ _ => true
  | _ => false

/-- The loop body of `ErrorHandler.withRetry`, with the operation modelled as
a function from the 0-based attempt index to that invocation's outcome.
`remaining = maxRetries - attempt`; the `attempt === maxRetries` exit is
checked before the non-retryable check, exactly as in the source, and the
delay waited after a failed attempt is `baseDelay * 2 ^ attempt`. -/
def withRetryFrom {α : Type} (op : ℕ → Except AppErr α) (baseDelay : ℕ) :
    (attempt remaining : ℕ) → RetryTrace α
  | attempt, 0 =>
    match op attempt with
    | .ok a => ⟨.ok a, 1, []⟩
    | .error e => ⟨.error e, 1, []⟩
  | attempt, remaining + 1 =>
    match op attempt with
    | .ok a => ⟨.ok a, 1, []⟩
    | .error e =>
      if nonRetryable e then ⟨.error e, 1, []⟩
      else
        let rest := withRetryFrom op baseDelay (attempt + 1) remaining
        ⟨rest.result, rest.invocations + 1, baseDelay * 2 ^ attempt :: rest.delays⟩

/-- `ErrorHandler.withRetry(operation, maxRetries, baseDelay)`: run the loop
from attempt 0 with `maxRetries` additional attempts allowed. -/
def withRetry {α : Type} (op : ℕ → Except AppErr α) (maxRetries baseDelay : ℕ) :
    RetryTrace α :=
  withRetryFrom op baseDelay 0 maxRetries

/-! ### The `ApiService` response interceptor (`lib/api.ts`) -/

/-- What the response interceptor's error branch does with a failed request:
either re-issue the request (bumping the per-request retry count) or reject
with a mapped error. -/
inductive InterceptorAction where
  | resend (newRetryCount : ℕ)
  | reject (e : AppErr)

/-- The error branch of the `ApiService` response interceptor: map the error,
then re-issue the request only when the mapped error's `code` is
`"NETWORK_ERROR"` and fewer than 2 retries were used; otherwise reject with
the mapped error. (`error.config` is taken as present, which only widens the
retry branch.) -/
def responseInterceptorOnError (e : AxiosError) (retryCount : ℕ) : InterceptorAction :=
  let mapped := mapAxiosError e
  if mapped.code = some "NETWORK_ERROR" ∧ retryCount < 2 then
    .resend (retryCount + 1)
  else
    .reject mapped

/-! ### Durable storage and the session operations (`lib/api.ts`) -/

/-- The durable key-value store: the two AsyncStorage keys
`auth_token` and `user_data` (the serialized profile is kept as the stored
`JSValue`; serialization itself is presence-preserving). -/
structure Storage where
  auth_token : Option String
  user_data : Option JSValue

/-- `typeof` names for the modelled values (`typeof null` is `"object"`). -/
def typeofName : JSValue → String
  | .null => "object"
  | .undefined => "undefined"
  | .bool _ => "boolean"
  | .num _ => "number"
  | .str _ => "string"
  | .arr _ => "object"
  | .obj _ => "object"

/-- Is the value `null` or `undefined`? -/
def isNullOrUndefined : JSValue → Bool
  | .null => true
  | .undefined => true
  | _ => false

/-- `ErrorHandler.extractResponseData(response, expectedDataType?)`: unwrap
`response.data.data` / `response.data` / `response` by truthiness, fail with
`ValidationError` when the response is falsy, the extracted data is
null/undefined, or an expected `typeof` does not match. -/
def extractResponseData (response : JSValue) (expectedDataType : Option String) :
    Except AppErr JSValue :=
  if ¬ jsTruthy response then
    .error (.validationError "Response is null or undefined" none)
  else
    let d1 := jsGet response "data"
    let data :=
      if jsTruthy d1 ∧ jsTruthy (jsGet d1 "data") then jsGet d1 "data"
      else if jsTruthy d1 then d1
      else response
    if isNullOrUndefined data then
      .error (.validationError "Response data is null or undefined" none)
    else
      match expectedDataType with
      | some t =>
        if typeofName data ≠ t then
          .error (.validationError ("Expected " ++ t ++ " but received " ++ typeofName data) none)
        else .ok data
      | none => .ok data

/-- `ErrorHandler.safeDestructure(obj, {})` with empty defaults: a truthy
value of `typeof === "object"` is kept (spreading an array keeps its
entries), anything else becomes the empty object. -/
def safeDestructure : JSValue → JSValue
  | .obj fs => .obj fs
  | .arr xs => .arr xs
  | _ => .obj []

/-- The login credentials object handed to `ApiService.login`; `none` fields
model absent properties. -/
structure LoginRequest where
  email : Option String
  password : Option String

/-- The registration object handed to `ApiService.register`. -/
structure RegisterRequest where
  name : Option String
  email : Option String
  password : Option String

/-- Outcome of one remote HTTP call made through the axios client: a
successful axios response object, or the raw axios failure (which the
response interceptor will map). -/
inductive Transport where
  | ok (response : JSValue)
  | err (e : AxiosError)

/-- Storage effect of the response interceptor: a 401 response clears both
persisted keys before the mapped error is rejected. -/
def interceptorStorage (e : AxiosError) (st : Storage) : Storage :=
  if e.response.map AxiosResponsePart.status = some 401 then ⟨none, none⟩ else st

/-- Result of a session operation: what the method returns (or throws), the
final durable storage, and the list of request bodies actually sent over
the network. -/
structure SessionOutcome (α : Type) where
  result : Except AppErr α
  storage : Storage
  sent : List (String × String)

namespace ApiService

/-- `ApiService.login(credentials)`: safe-destructure with `""` defaults,
`validateRequired(["email","password"])`, post `/auth/login` with the
(unmodified) safe credentials, extract the payload, read
`safeString(authData.token)` and `safeDestructure(authData.user, {})`,
reject an empty token, then persist `auth_token` and `user_data`.  Every
failure is re-thrown through `mapAxiosError(error as any)` (modelled by
`mapCaught` for already-typed errors); a 401 transport failure has already
cleared storage in the interceptor. -/
def login (creds : Option LoginRequest) (remote : Transport) (st : Storage) :
    SessionOutcome (String × JSValue) :=
  let email := (creds.map (·.email.getD "")).getD ""
  let password := (creds.map (·.password.getD "")).getD ""
  let missing :=
    (if email = "" then ["email"] else []) ++ (if password = "" then ["password"] else [])
  if missing ≠ [] then
    { result := .error (mapCaught (.validationError
        ("Missing required fields in Login credentials: " ++ String.intercalate ", " missing)
        none))
      storage := st, sent := [] }
  else
    match remote with
    | .err e =>
      { result := .error (mapCaught (mapAxiosError e))
        storage := interceptorStorage e st
        sent := [(email, password)] }
    | .ok response =>
      match extractResponseData response (some "object") with
      | .error ve =>
        { result := .error (mapCaught ve), storage := st, sent := [(email, password)] }
      | .ok authData =>
        let token := safeString (jsGet authData "token") ""
        let user := safeDestructure (jsGet authData "user")
        if token = "" then
          { result := .error (mapCaught (.appError
              "Invalid response: missing authentication token" (some "SERVER_ERROR") none none))
            storage := st, sent := [(email, password)] }
        else
          { result := .ok (token, user)
            storage := { auth_token := some token, user_data := some user }
            sent := [(email, password)] }

/-- `ApiService.register(userData)`: same shape as `login` with the extra
required `name` field (validated in source order `["email","password","name"]`).
The `sent` entries record `(email, password)` of the posted body. -/
def register (userData : Option RegisterRequest) (remote : Transport) (st : Storage) :
    SessionOutcome (String × JSValue) :=
  let nm := (userData.map (·.name.getD "")).getD ""
  let email := (userData.map (·.email.getD "")).getD ""
  let password := (userData.map (·.password.getD "")).getD ""
  let missing :=
    (if email = "" then ["email"] else []) ++ (if password = "" then ["password"] else [])
      ++ (if nm = "" then ["name"] else [])
  if missing ≠ [] then
    { result := .error (mapCaught (.validationError
        ("Missing required fields in Registration data: " ++ String.intercalate ", " missing)
        none))
      storage := st, sent := [] }
  else
    match remote with
    | .err e =>
      { result := .error (mapCaught (mapAxiosError e))
        storage := interceptorStorage e st
        sent := [(email, password)] }
    | .ok response =>
      match extractResponseData response (some "object") with
      | .error ve =>
        { result := .error (mapCaught ve), storage := st, sent := [(email, password)] }
      | .ok authData =>
        let token := safeString (jsGet authData "token") ""
        let user := safeDestructure (jsGet authData "user")
        if token = "" then
          { result := .error (mapCaught (.appError
              "Invalid response: missing authentication token" (some "SERVER_ERROR") none none))
            storage := st, sent := [(email, password)] }
        else
          { result := .ok (token, user)
            storage := { auth_token := some token, user_data := some user }
            sent := [(email, password)] }

/-- `ApiService.logout()`: remove both keys; the catch only logs, so the
operation clears local state unconditionally and never throws (no server
call is made at all). -/
def logout (_st : Storage) : Storage :=
  { auth_token := none, user_data := none }

/-- Number of own keys `Object.keys` would report for the modelled value. -/
def jsKeysLength : JSValue → ℕ
  | .obj fs => fs.length
  | .arr xs => xs.length
  | _ => 0

/-- `ApiService.updateProfile(userData)`: reject an empty partial with an
`AppError("User data is required", "VALIDATION_ERROR")` (re-mapped by the
catch), otherwise put `/auth/profile`, extract the updated user and persist
it under `user_data` only. -/
def updateProfile (userData : Option JSValue) (remote : Transport) (st : Storage) :
    SessionOutcome JSValue :=
  let safe := safeDestructure (userData.getD .undefined)
  if jsKeysLength safe = 0 then
    { result := .error (mapCaught (.appError "User data is required"
        (some "VALIDATION_ERROR") none none))
      storage := st, sent := [] }
  else
    match remote with
    | .err e =>
      { result := .error (mapCaught (mapAxiosError e))
        storage := interceptorStorage e st
        sent := [("PUT /auth/profile", "")] }
    | .ok response =>
      match extractResponseData response (some "object") with
      | .error ve =>
        { result := .error (mapCaught ve), storage := st, sent := [("PUT /auth/profile", "")] }
      | .ok updatedUser =>
        { result := .ok updatedUser
          storage := { st with user_data := some updatedUser }
          sent := [("PUT /auth/profile", "")] }

/-- `ApiService.getCurrentUser()`: get `/auth/me`, extract the user; failures
are re-mapped (`mapCaught`), and a 401 has cleared storage in the response
interceptor. -/
def getCurrentUser (remote : Transport) (st : Storage) :
    Except AppErr JSValue × Storage :=
  match remote with
  | .err e => (.error (mapCaught (mapAxiosError e)), interceptorStorage e st)
  | .ok response =>
    match extractResponseData response (some "object") with
    | .error ve => (.error (mapCaught ve), st)
    | .ok u => (.ok u, st)

end ApiService

/-! ### The auth context (`contexts/auth-context.tsx`) -/

/-- The observable auth-context state once `checkAuthState` finishes:
the `user` state value (`null` when signed out) and `isLoading`. -/
structure AuthState where
  user : JSValue
  isLoading : Bool

/-- `isAuthenticated = !!user`. -/
def isAuthenticated (s : AuthState) : Bool := jsTruthy s.user

/-- `AuthProvider.logout`: call `apiService.logout()` (which clears both
keys and never throws) and set the user to `null` — even on failure the
catch still clears the user. -/
def AuthProvider.logout (st : Storage) : Storage × JSValue :=
  (ApiService.logout st, .null)

/-- `AuthProvider.checkAuthState`: read both keys; when both are present and
truthy, verify the token via `getCurrentUser` — on success replace the user
state and re-persist `user_data`, on any failure run `logout()` (clearing
both keys and the user).  When either key is missing the state is left
signed out. -/
def AuthProvider.checkAuthState (st : Storage) (remote : Transport) :
    AuthState × Storage :=
  match st.auth_token, st.user_data with
  | some t, some u =>
    if t = "" then (⟨.null, false⟩, st)
    else
      -- setUser(parsedUser?.user) is immediately superseded by the verify
      -- branch below, in both its success and failure arms.
      let _interim := jsGet u "user"
      match ApiService.getCurrentUser remote st with
      | (.ok cu, st1) => (⟨cu, false⟩, { st1 with user_data := some cu })
      | (.error _, st1) =>
        let (st2, usr) := AuthProvider.logout st1
        (⟨usr, false⟩, st2)
  | _, _ => (⟨.null, false⟩, st)

/-! ### The auth screens -/

/-- `LoginScreen.handleLogin` (login screen as reproduced in
`RELEASE_NOTES.md`): alert and send nothing when either field is empty,
otherwise call `login` with the email lower-cased and trimmed and the
password untouched. -/
def handleLogin (email password : String) : Option LoginRequest :=
  if email = "" ∨ password = "" then none
  else some { email := some (jsTrim (jsToLower email)), password := some password }

/-- `RegisterScreen.handleRegister` (`app/auth/register.tsx`), restricted to
the fields that reach the API: `none` when any field is empty, the passwords
differ, or the password is shorter than 6 characters; otherwise the posted
body carries `name.trim()` and `email.toLowerCase().trim()`. -/
def handleRegister (name email password confirmPassword : String) :
    Option RegisterRequest :=
  if name = "" ∨ email = "" ∨ password = "" ∨ confirmPassword = "" then none
  else if password ≠ confirmPassword then none
  else if password.length < 6 then none
  else some { name := some (jsTrim name), email := some (jsTrim (jsToLower email)),
              password := some password }

/-! ## Theorems -/

/-- No error constructed by `mapAxiosError` carries the code
`"NETWORK_ERROR"`. -/
lemma mapAxiosError_code_ne_network (e : AxiosError) :
    (mapAxiosError e).code ≠ some "NETWORK_ERROR" := by
  rcases h : e.response with _ | r <;>
    simp only [mapAxiosError, h] <;>
    split_ifs <;>
    simp [AppErr.code]

/-- C10: the `ApiService` response interceptor always rejects with the error
produced by `mapAxiosError` and never re-issues the request: its
network-retry branch fires only when the mapped error's `code` equals
`"NETWORK_ERROR"`, and no error constructed by `mapAxiosError` carries that
code. -/
theorem interceptor_never_resends (e : AxiosError) (retryCount : ℕ) :
    responseInterceptorOnError e retryCount = .reject (mapAxiosError e) := by
  unfold responseInterceptorOnError
  simp [mapAxiosError_code_ne_network e]

/-- C5: an operation whose first invocation raises a non-retryable error
(`AuthenticationError` or `ValidationError`) is invoked exactly once, with
no backoff delay, and that error propagates — regardless of the configured
number of attempts. -/
theorem withRetry_nonRetryable_once {α : Type} (op : ℕ → Except AppErr α)
    (maxRetries baseDelay : ℕ) (e : AppErr)
    (h0 : op 0 = .error e) (hnr : nonRetryable e = true) :
    withRetry op maxRetries baseDelay = ⟨.error e, 1, []⟩ := by
  unfold withRetry
  cases maxRetries with
  | zero => simp [withRetryFrom, h0]
  | succ n => simp [withRetryFrom, h0, hnr]

/-- Witness for C5: an operation always raising `AuthenticationError`, run
with `maxRetries = 3`, is attempted exactly once. -/
theorem withRetry_nonRetryable_once_witness :
    withRetry (fun _ => (.error (.authenticationError "Authentication failed") : Except AppErr ℕ))
        3 1000
      = ⟨.error (.authenticationError "Authentication failed"), 1, []⟩ :=
  withRetry_nonRetryable_once _ 3 1000 _ rfl rfl

/-- When every invocation fails with a retryable error, the loop starting at
`attempt` with `remaining` allowed retries uses them all and ends with the
error of the last attempt. -/
lemma withRetryFrom_all_fail {α : Type} (op : ℕ → Except AppErr α) (b : ℕ)
    (errf : ℕ → AppErr) (hop : ∀ i, op i = .error (errf i))
    (hnr : ∀ i, nonRetryable (errf i) = false) :
    ∀ r a, (withRetryFrom op b a r).result = .error (errf (a + r)) ∧
      (withRetryFrom op b a r).invocations = r + 1 := by
  intro r
  induction r with
  | zero => intro a; simp [withRetryFrom, hop a]
  | succ n ih =>
    intro a
    obtain ⟨h1, h2⟩ := ih (a + 1)
    have hidx : a + (n + 1) = a + 1 + n := by omega
    simp only [withRetryFrom, hop a, hnr a, if_false, Bool.false_eq_true]
    exact ⟨by rw [hidx, ← h1], by rw [← h2]⟩

/-- C6: with `maxRetries = 3`, an operation raising a retryable error on its
first two invocations and succeeding on the third succeeds after exactly 3
invocations, waiting `baseDelay * 2 ^ 0` then `baseDelay * 2 ^ 1` — a
strictly increasing backoff when the base delay is positive; and when every
invocation keeps failing retryably, the attempts are exhausted
(`maxRetries + 1` invocations) and the last error propagates. -/
theorem withRetry_backoff_behaviour {α : Type} (op : ℕ → Except AppErr α) (b : ℕ) :
    (∀ (e0 e1 : AppErr) (a : α), op 0 = .error e0 → op 1 = .error e1 → op 2 = .ok a →
      nonRetryable e0 = false → nonRetryable e1 = false → 0 < b →
      withRetry op 3 b = ⟨.ok a, 3, [b * 2 ^ 0, b * 2 ^ 1]⟩ ∧ b * 2 ^ 0 < b * 2 ^ 1) ∧
    (∀ (errf : ℕ → AppErr) (m : ℕ), (∀ i, op i = .error (errf i)) →
      (∀ i, nonRetryable (errf i) = false) →
      (withRetry op m b).result = .error (errf m) ∧ (withRetry op m b).invocations = m + 1) := by
  constructor
  · intro e0 e1 a h0 h1 h2 hnr0 hnr1 hb
    constructor
    · unfold withRetry
      simp [withRetryFrom, h0, h1, h2, hnr0, hnr1]
    · have : b * 1 < b * 2 := by omega
      simpa using this
  · intro errf m hop hnr
    have h := withRetryFrom_all_fail op b errf hop hnr m 0
    exact ⟨by rw [withRetry, h.1]; norm_num, by rw [withRetry, h.2]⟩

/-- Witness for C6: a concrete operation failing twice with `ServerError`
then succeeding, at `baseDelay = 1000`, and a concrete always-failing
operation exhausting `maxRetries = 2`. -/
theorem withRetry_backoff_behaviour_witness :
    withRetry
        (fun i => if i < 2 then
            (.error (.serverError "Server error. Please try again later." (some 500)) : Except AppErr ℕ)
          else .ok 42) 3 1000
      = ⟨.ok 42, 3, [1000 * 2 ^ 0, 1000 * 2 ^ 1]⟩ ∧ 1000 * 2 ^ 0 < 1000 * 2 ^ 1 ∧
    (withRetry (fun _ => (.error (.networkError "down") : Except AppErr ℕ)) 2 5).result
      = .error (.networkError "down") := by
  obtain ⟨h1, h2⟩ := (withRetry_backoff_behaviour
    (fun i => if i < 2 then
        (.error (.serverError "Server error. Please try again later." (some 500)) : Except AppErr ℕ)
      else .ok 42) 1000).1 _ _ 42 rfl rfl rfl rfl rfl (by norm_num)
  have h3 := ((withRetry_backoff_behaviour
    (fun _ => (.error (.networkError "down") : Except AppErr ℕ)) 5).2
    (fun _ => .networkError "down") 2 (fun _ => rfl) (fun _ => rfl)).1
  exact ⟨h1, h2, h3⟩

/-- C1 counterexample: a response with HTTP status 403 is classified as
`AuthenticationError` — its variant is `AUTHENTICATION`, not the
`AUTHORIZATION` variant the claim requires (no authorization error class
exists in the code). -/
theorem mapAxiosError_403_counterexample :
    getErrorType (mapAxiosError
        ⟨some ⟨403, none, none⟩, none, "Request failed with status code 403"⟩)
      = .AUTHENTICATION ∧ ErrorType.AUTHENTICATION ≠ .AUTHORIZATION :=
  ⟨rfl, by decide⟩

/-- C1 (amended): the status→class mapping `mapAxiosError` actually
implements — 400→`ValidationError` carrying the server-supplied field
errors, 401→`AuthenticationError`, 403→`AuthenticationError "Access denied"`,
404→generic `AppError "Resource not found"` (`UNKNOWN` variant),
409→`ValidationError`, 429→generic `AppError` (`UNKNOWN` variant), each
status in 500/502/503/504→`ServerError` carrying that status code, every
other status→generic `AppError` carrying the server-supplied message. -/
theorem mapAxiosError_status_mapping (e : AxiosError) (r : AxiosResponsePart)
    (h : e.response = some r) :
    (r.status = 400 → mapAxiosError e = .validationError (respMessage e r) r.dataErrors) ∧
    (r.status = 401 → mapAxiosError e = .authenticationError (respMessage e r)) ∧
    (r.status = 403 → mapAxiosError e = .authenticationError "Access denied") ∧
    (r.status = 404 → mapAxiosError e = .appError "Resource not found" none none none) ∧
    (r.status = 409 → mapAxiosError e = .validationError (respMessage e r) none) ∧
    (r.status = 429 →
      mapAxiosError e = .appError "Too many requests. Please try again later." none none none) ∧
    (r.status = 500 ∨ r.status = 502 ∨ r.status = 503 ∨ r.status = 504 →
      mapAxiosError e = .serverError "Server error. Please try again later." (some r.status)) ∧
    (r.status ∉ ([400, 401, 403, 404, 409, 429, 500, 502, 503, 504] : List ℕ) →
      mapAxiosError e = .appError (respMessage e r) none none none) := by
  simp only [mapAxiosError, h]
  refine ⟨fun hs => by simp [hs], fun hs => by simp [hs], fun hs => by simp [hs],
    fun hs => by simp [hs], fun hs => by simp [hs], fun hs => by simp [hs],
    fun hs => ?_, fun hs => ?_⟩
  · rcases hs with hs | hs | hs | hs <;> simp [hs]
  · simp only [List.mem_cons, List.not_mem_nil, or_false, not_or] at hs
    obtain ⟨h400, h401, h403, h404, h409, h429, h500, h502, h503, h504⟩ := hs
    simp [h400, h401, h403, h404, h409, h429, h500, h502, h503, h504]

/-- Witness for C1 (amended): concrete classifications at statuses 400
(with server field errors), 404, 503 and 418. -/
theorem mapAxiosError_status_mapping_witness :
    mapAxiosError ⟨some ⟨400, some "Bad input", some (.arr [.str "email"])⟩, none, "m"⟩
      = .validationError "Bad input" (some (.arr [.str "email"])) ∧
    mapAxiosError ⟨some ⟨404, none, none⟩, none, "m"⟩
      = .appError "Resource not found" none none none ∧
    mapAxiosError ⟨some ⟨503, none, none⟩, none, "m"⟩
      = .serverError "Server error. Please try again later." (some 503) ∧
    mapAxiosError ⟨some ⟨418, none, none⟩, none, "I'm a teapot"⟩
      = .appError "I'm a teapot" none none none :=
  ⟨(mapAxiosError_status_mapping _ ⟨400, some "Bad input", some (.arr [.str "email"])⟩ rfl).1 rfl,
   (mapAxiosError_status_mapping _ ⟨404, none, none⟩ rfl).2.2.2.1 rfl,
   (mapAxiosError_status_mapping _ ⟨503, none, none⟩ rfl).2.2.2.2.2.2.1 (by norm_num),
   (mapAxiosError_status_mapping _ ⟨418, none, none⟩ rfl).2.2.2.2.2.2.2 (by norm_num)⟩

/-- C7 counterexample: a failure without a response whose abort code is
`ECONNABORTED` (a client-side timeout) is classified as a generic `AppError`
— its variant is `UNKNOWN`, not the `TIMEOUT` variant the claim requires. -/
theorem mapAxiosError_timeout_counterexample :
    getErrorType (mapAxiosError ⟨none, some "ECONNABORTED", "timeout of 10000ms exceeded"⟩)
      = .UNKNOWN ∧ ErrorType.UNKNOWN ≠ .TIMEOUT :=
  ⟨rfl, by decide⟩

/-- C7 (amended): a caught failure with no HTTP response is classified as
`NetworkError` (the `NETWORK` variant), except when the abort code is
`ECONNABORTED`, where the result is the generic
`AppError "Request timeout. Please try again."` — the `UNKNOWN` variant,
not a distinguished timeout variant. -/
theorem mapAxiosError_no_response (e : AxiosError) (h : e.response = none) :
    (e.code = some "ECONNABORTED" →
      mapAxiosError e = .appError "Request timeout. Please try again." none none none ∧
      getErrorType (mapAxiosError e) = .UNKNOWN) ∧
    (e.code ≠ some "ECONNABORTED" →
      mapAxiosError e
          = .networkError "Network connection failed. Please check your internet connection." ∧
      getErrorType (mapAxiosError e) = .NETWORK) := by
  simp only [mapAxiosError, h]
  exact ⟨fun hc => by simp [hc, getErrorType],
    fun hc => by simp [hc, getErrorType]⟩

/-- Witness for C7 (amended): a dropped connection (no abort code) maps to
`NetworkError`, an `ECONNABORTED` abort maps to the generic timeout
`AppError`. -/
theorem mapAxiosError_no_response_witness :
    mapAxiosError ⟨none, none, "Network Error"⟩
        = .networkError "Network connection failed. Please check your internet connection." ∧
    mapAxiosError ⟨none, some "ECONNABORTED", "timeout of 10000ms exceeded"⟩
        = .appError "Request timeout. Please try again." none none none :=
  ⟨((mapAxiosError_no_response ⟨none, none, "Network Error"⟩ rfl).2 (by simp)).1,
   ((mapAxiosError_no_response ⟨none, some "ECONNABORTED", "timeout of 10000ms exceeded"⟩ rfl).1
      rfl).1⟩

/-- C8 counterexample: `safeBoolean("yes", true)` returns `false` — the
input does not match the target type, yet the accessor does not return the
caller-supplied fallback `true` as the claim requires: non-`"true"` strings
coerce to `false`. -/
theorem safeBoolean_counterexample :
    safeBoolean (.str "yes") true = false ∧ (false : Bool) ≠ true ∧
    safeArray (.str "x") [] = [.str "x"] ∧ ([JSValue.str "x"] : List JSValue) ≠ [] :=
  ⟨by decide, by decide, rfl, by simp⟩

/-- C8 (amended): the coalesce-family accessors are total functions with the
following input/output behaviour — each returns the input when it already
matches the target type (numeric strings are parsed for the numeric
accessor; any non-null value is stringified for the string accessor);
`null`/`undefined` yield the fallback; otherwise `safeArray` wraps the value
in a one-element array, `safeBoolean` coerces strings (true exactly for
lower-cased `"true"`) and numbers (true exactly for non-zero, `NaN`
included), and `safeNumber` returns the fallback. -/
theorem safeAccessors_characterization :
    (∀ xs fb, safeArray (.arr xs) fb = xs) ∧
    (∀ fb, safeArray .null fb = fb ∧ safeArray .undefined fb = fb) ∧
    (∀ v fb, (∀ xs, v ≠ .arr xs) → v ≠ .null → v ≠ .undefined → safeArray v fb = [v]) ∧
    (∀ s fb, safeString (.str s) fb = s) ∧
    (∀ fb, safeString .null fb = fb ∧ safeString .undefined fb = fb) ∧
    (∀ v fb, (∀ s, v ≠ .str s) → v ≠ .null → v ≠ .undefined → safeString v fb = jsToString v) ∧
    (∀ q fb, safeNumber (.num (some q)) fb = q) ∧
    (∀ s fb, safeNumber (.str s) fb = (parseFloat s).getD fb) ∧
    (∀ v fb, (∀ q, v ≠ .num (some q)) → (∀ s, v ≠ .str s) → safeNumber v fb = fb) ∧
    (∀ b fb, safeBoolean (.bool b) fb = b) ∧
    (∀ fb, safeBoolean .null fb = fb ∧ safeBoolean .undefined fb = fb) ∧
    (∀ s fb, safeBoolean (.str s) fb = decide (jsToLower s = "true")) ∧
    (∀ x fb, safeBoolean (.num x) fb = decide (x ≠ some 0)) ∧
    (∀ xs fb, safeBoolean (.arr xs) fb = fb) ∧
    (∀ fs fb, safeBoolean (.obj fs) fb = fb) := by
  refine ⟨fun xs fb => rfl, fun fb => ⟨rfl, rfl⟩, ?_, fun s fb => rfl, fun fb => ⟨rfl, rfl⟩,
    ?_, fun q fb => rfl, ?_, ?_, fun b fb => rfl, fun fb => ⟨rfl, rfl⟩, ?_, ?_,
    fun xs fb => rfl, fun fs fb => rfl⟩
  · intro v fb harr hnull hundefined
    cases v with
    | arr xs => exact absurd rfl (harr xs)
    | null => exact absurd rfl hnull
    | undefined => exact absurd rfl hundefined
    | _ => rfl
  · intro v fb hstr hnull hundefined
    cases v with
    | str s => exact absurd rfl (hstr s)
    | null => exact absurd rfl hnull
    | undefined => exact absurd rfl hundefined
    | _ => rfl
  · intro s fb
    simp only [safeNumber]
    cases h : parseFloat s <;> simp [h]
  · intro v fb hnum hstr
    cases v with
    | num x => cases x with
      | some q => exact absurd rfl (hnum q)
      | none => rfl
    | str s => exact absurd rfl (hstr s)
    | _ => rfl
  · intro s fb
    unfold safeBoolean
    by_cases h : jsToLower s = "true" <;> simp [h]
  · intro x fb
    cases x with
    | none => simp [safeBoolean]
    | some q =>
      unfold safeBoolean
      by_cases h : q = 0 <;> simp [h]

/-- Witness for C8 (amended): concrete instances of the hypothesis-bearing
conjuncts — a boolean wrapped by `safeArray`, a number stringified by
`safeString`, and an object falling back in `safeNumber`. -/
theorem safeAccessors_characterization_witness :
    safeArray (.bool true) [] = [.bool true] ∧
    safeString (.num (some 7)) "fb" = jsToString (.num (some 7)) ∧
    safeNumber (.obj []) 3 = 3 := by
  obtain ⟨-, -, h3, -, -, h6, -, -, h9, -⟩ := safeAccessors_characterization
  exact ⟨h3 (.bool true) [] (fun xs h => nomatch h) (fun h => nomatch h) (fun h => nomatch h),
    h6 (.num (some 7)) "fb" (fun s h => nomatch h) (fun h => nomatch h) (fun h => nomatch h),
    h9 (.obj []) 3 (fun q h => nomatch h) (fun s h => nomatch h)⟩

/-- C2 counterexample: a successful `updateProfile` on a store holding
neither key writes `user_data` alone, leaving it present while `auth_token`
is absent — the two keys are not only ever written together. -/
theorem updateProfile_unpaired_write_counterexample :
    ((ApiService.updateProfile (some (.obj [("name", .str "New")]))
        (.ok (.obj [("data", .obj [("data", .obj [("name", .str "New")])])]))
        ⟨none, none⟩).storage.user_data).isSome = true ∧
    (ApiService.updateProfile (some (.obj [("name", .str "New")]))
        (.ok (.obj [("data", .obj [("data", .obj [("name", .str "New")])])]))
        ⟨none, none⟩).storage.auth_token = none :=
  ⟨rfl, rfl⟩

/-- C2 (amended): after every successful `login` or `register` both
`auth_token` and `user_data` are present in durable storage, and `logout`
unconditionally leaves both absent (it makes no server call, so no failure
can prevent the local clear); but `updateProfile` re-writes `user_data`
alone, leaving `auth_token` whatever it was. -/
theorem session_storage_pairing :
    (∀ creds remote st t u, (ApiService.login creds remote st).result = .ok (t, u) →
      (ApiService.login creds remote st).storage = ⟨some t, some u⟩) ∧
    (∀ ud remote st t u, (ApiService.register ud remote st).result = .ok (t, u) →
      (ApiService.register ud remote st).storage = ⟨some t, some u⟩) ∧
    (∀ st, ApiService.logout st = ⟨none, none⟩) ∧
    (∀ ud remote st u, (ApiService.updateProfile ud remote st).result = .ok u →
      (ApiService.updateProfile ud remote st).storage = ⟨st.auth_token, some u⟩) := by
  refine ⟨?_, ?_, fun st => rfl, ?_⟩
  · intro creds remote st t u
    simp only [ApiService.login]
    repeat' split
    all_goals intro h
    all_goals simp at h
    all_goals simp_all
  · intro ud remote st t u
    simp only [ApiService.register]
    repeat' split
    all_goals intro h
    all_goals simp at h
    all_goals simp_all
  · intro ud remote st u
    simp only [ApiService.updateProfile]
    repeat' split
    all_goals intro h
    all_goals simp at h
    all_goals simp_all

/-- Witness for C2 (amended): a concrete successful login persists both
keys, and a concrete logout clears both. -/
theorem session_storage_pairing_witness :
    (ApiService.login (some ⟨some "a@b.c", some "pw"⟩)
        (.ok (.obj [("data", .obj [("data",
          .obj [("token", .str "tok"), ("user", .obj [("name", .str "N")])])])]))
        ⟨none, none⟩).storage = ⟨some "tok", some (.obj [("name", .str "N")])⟩ ∧
    ApiService.logout ⟨some "tok", some (.obj [("name", .str "N")])⟩ = ⟨none, none⟩ :=
  ⟨session_storage_pairing.1 _ _ _ "tok" (.obj [("name", .str "N")]) rfl,
   session_storage_pairing.2.2.1 _⟩

/-- C3: a startup check on a store holding a (truthy) token and a profile,
against a server answering the verification request with HTTP 401, ends
signed out — `user` is `null`, `isAuthenticated` is `false` — with both
persisted keys cleared. -/
theorem checkAuthState_401_unauthenticated (st : Storage) (t : String) (u : JSValue)
    (e : AxiosError) (ht : st.auth_token = some t) (htne : t ≠ "")
    (hu : st.user_data = some u)
    (he : e.response.map AxiosResponsePart.status = some 401) :
    AuthProvider.checkAuthState st (.err e) = (⟨.null, false⟩, ⟨none, none⟩) ∧
    isAuthenticated (AuthProvider.checkAuthState st (.err e)).1 = false := by
  obtain ⟨a, b⟩ := st
  obtain rfl : a = some t := ht
  obtain rfl : b = some u := hu
  have hmain : AuthProvider.checkAuthState ⟨some t, some u⟩ (.err e)
      = (⟨.null, false⟩, ⟨none, none⟩) := by
    simp [AuthProvider.checkAuthState, ApiService.getCurrentUser, AuthProvider.logout,
      ApiService.logout, interceptorStorage, htne, he]
  exact ⟨hmain, by rw [hmain]; rfl⟩

/-- Witness for C3: a concrete store and a concrete 401 verification
failure. -/
theorem checkAuthState_401_unauthenticated_witness :
    AuthProvider.checkAuthState ⟨some "tok", some (.obj [("name", .str "N")])⟩
        (.err ⟨some ⟨401, some "Token expired", none⟩, none, "m"⟩)
      = (⟨.null, false⟩, ⟨none, none⟩) :=
  (checkAuthState_401_unauthenticated ⟨some "tok", some (.obj [("name", .str "N")])⟩ "tok"
    (.obj [("name", .str "N")]) ⟨some ⟨401, some "Token expired", none⟩, none, "m"⟩
    rfl (by decide) rfl rfl).1

/-- C4 (code slip): `login` with an empty email performs no network request,
but the `ValidationError` thrown by `validateRequired` is re-mapped by the
catch block's `mapAxiosError(error as any)` — which, seeing no `response`
property, converts it into `NetworkError` — so the caller receives the
`NETWORK` variant, not the `VALIDATION` variant. -/
theorem login_empty_field_behaviour (remote : Transport) (st : Storage) :
    ApiService.login (some ⟨some "", some "secret"⟩) remote st
      = { result := .error (.networkError
            "Network connection failed. Please check your internet connection.")
          storage := st, sent := [] } ∧
    getErrorType (.networkError
        "Network connection failed. Please check your internet connection.") = .NETWORK ∧
    ErrorType.NETWORK ≠ .VALIDATION := by
  refine ⟨?_, rfl, by decide⟩
  unfold ApiService.login
  rfl

/-- C9 counterexample: `ApiService.login` posts the email it is given
verbatim — `login("USER@X.com ", "secret")` sends `"USER@X.com "`, not the
normalized `"user@x.com"` the claim requires. -/
theorem login_sends_email_verbatim_counterexample :
    (ApiService.login (some ⟨some "USER@X.com ", some "secret"⟩)
        (.ok (.obj [])) ⟨none, none⟩).sent = [("USER@X.com ", "secret")] ∧
    "USER@X.com " ≠ "user@x.com" :=
  ⟨rfl, by decide⟩

/-- C9 (amended): lower-casing and trimming happen in the login screen's
`handleLogin`, not in `ApiService.login`: for non-empty fields whose
normalization is non-empty, the screen flow sends exactly the lower-cased,
trimmed email with the untouched password. -/
theorem handleLogin_sends_normalized (email password : String)
    (he : email ≠ "") (hp : password ≠ "") (hn : jsTrim (jsToLower email) ≠ "")
    (remote : Transport) (st : Storage) :
    (ApiService.login (handleLogin email password) remote st).sent
      = [(jsTrim (jsToLower email), password)] := by
  unfold handleLogin
  rw [if_neg (by simp [he, hp])]
  simp only [ApiService.login, Option.map_some', Option.getD_some]
  rw [if_neg (by simp [hn, hp])]
  cases remote with
  | err e => rfl
  | ok response =>
    cases hext : extractResponseData response (some "object") with
    | error ve => simp [hext]
    | ok authData =>
      simp only [hext]
      split <;> rfl

/-- Witness for C9 (amended): the screen flow for
`login("USER@X.com ", "secret")` sends `"user@x.com"`. -/
theorem handleLogin_sends_normalized_witness :
    (ApiService.login (handleLogin "USER@X.com " "secret") (.ok (.obj [])) ⟨none, none⟩).sent
      = [("user@x.com", "secret")] :=
  (handleLogin_sends_normalized "USER@X.com " "secret" (by decide) (by decide) (by decide)
      (.ok (.obj [])) ⟨none, none⟩).trans (by decide)

end Cookly
